import Mathlib

/-!
Verification development for the `terraform-provider-hrobot` repository.

The definitions below are a shallow embedding of the provider's core logic:

* the private-IP allocator (`ProviderData.GetNextAvailableIP` / `ReleaseIP`
  in `provider/provider.go`);
* the configuration resource's Create / Update / Delete lifecycle methods
  (`configurationResource` in the revision that carries `local_ip` and
  `version` fields);
* the `preInstall` provisioning pipeline stage of `provider/configure.go`
  (disk probing, payload build and upload, imaging, reboot, boot waits);
* the `waitTCP` reachability waiter of `provider/helper.go`;
* the transaction cache and the `serverOrderResource.Read` decision logic.

External effects (HTTP calls to the Robot API, SSH sessions, the wall
clock) are modelled by explicit oracle parameters: each remote call's
outcome is an input, and the functions return both the value the Go code
would produce and a trace of the external actions attempted, so that
short-circuiting behaviour is visible in the result.
-/

/-- Terraform framework attribute value: null, unknown, or a concrete value.
Mirrors `types.String` / `types.Int64` / `types.Bool` of the plugin
framework, whose `IsNull` / `IsUnknown` / `ValueString` accessors the Go
code uses. -/
inductive TFVal (α : Type) where
  | null : TFVal α
  | unknown : TFVal α
  | value : α → TFVal α
deriving DecidableEq, Repr

/-- True when the attribute is neither null nor unknown
(the `!v.IsNull() && !v.IsUnknown()` pattern of the Go code). -/
def TFVal.isKnown {α : Type} : TFVal α → Bool
  | .value _ => true
  | _ => false

/-- Mirrors `types.String.ValueString()`: the value, or `""` for null/unknown. -/
def TFVal.valueString : TFVal String → String
  | .value s => s
  | _ => ""

/-- Mirrors `types.Int64.ValueInt64()`: the value, or `0` for null/unknown. -/
def TFVal.valueInt : TFVal Int → Int
  | .value n => n
  | _ => 0

/-- Mirrors `types.Bool.ValueBool()`: the value, or `false` for null/unknown. -/
def TFVal.valueBool : TFVal Bool → Bool
  | .value b => b
  | _ => false

/-! ## Private IP allocator (`provider/provider.go`, lines 132-154)

`ProviderData.UsedIPs` is a `map[string]bool`; we model the set of keys
marked `true` as a list of strings (acquisition only inserts addresses
that are absent, so no duplicates arise from it, and release removes
every occurrence). -/

/-- The address string `fmt.Sprintf("10.1.0.%d", i)`. -/
def ipString (i : Nat) : String := "10.1.0." ++ toString i

/-- The loop indices `2 .. 127` of `GetNextAvailableIP`, in scan order. -/
def ipRange : List Nat := (List.range 126).map (fun k => k + 2)

/-- The scan loop of `GetNextAvailableIP`: walk the indices in order and
return the first address not in the in-use set. -/
def scanIPs (used : List String) : List Nat → Option String
  | [] => none
  | i :: rest => if ipString i ∈ used then scanIPs used rest else some (ipString i)

/-- `ProviderData.GetNextAvailableIP`: returns the first free address in
`10.1.0.2 - 10.1.0.127` and marks it used, or the exhaustion error. -/
def getNextAvailableIP (used : List String) : Except String (String × List String) :=
  match scanIPs used ipRange with
  | some ip => .ok (ip, ip :: used)
  | none => .error ("no available IP addresses in range 10.1.0.2-10.1.0.127")

/-- `ProviderData.ReleaseIP`: `delete(pd.UsedIPs, ip)` — remove the
address from the in-use set. -/
def releaseIP (used : List String) (ip : String) : List String :=
  used.filter (fun x => x != ip)

/-- A sequence of `n` Acquire calls with no intervening Release, collecting
the successfully returned addresses; stops at the first exhaustion error. -/
def acquireSeq : Nat → List String → List String × List String
  | 0, used => ([], used)
  | n + 1, used =>
    match getNextAvailableIP used with
    | .error _ => ([], used)
    | .ok (ip, used') =>
      let r := acquireSeq n used'
      (ip :: r.1, r.2)

/-! Basic allocator lemmas. -/

theorem scanIPs_some_not_mem {used : List String} {l : List Nat} {ip : String}
    (h : scanIPs used l = some ip) : ip ∉ used := by
  induction l with
  | nil => simp [scanIPs] at h
  | cons i rest ih =>
    by_cases hm : ipString i ∈ used
    · simp [scanIPs, hm] at h
      exact ih h
    · simp [scanIPs, hm] at h
      subst h
      exact hm

theorem getNextAvailableIP_ok {used used' : List String} {ip : String}
    (h : getNextAvailableIP used = .ok (ip, used')) :
    ip ∉ used ∧ used' = ip :: used := by
  unfold getNextAvailableIP at h
  cases hs : scanIPs used ipRange with
  | none => rw [hs] at h; cases h
  | some ip0 =>
    rw [hs] at h
    cases h
    exact ⟨scanIPs_some_not_mem hs, rfl⟩

theorem acquireSeq_nodup_aux (n : Nat) (used : List String) :
    ((acquireSeq n used).1.Nodup) ∧ (∀ x ∈ used, x ∉ (acquireSeq n used).1) := by
  induction n generalizing used with
  | zero => simp [acquireSeq]
  | succ n ih =>
    cases hg : getNextAvailableIP used with
    | error e => simp [acquireSeq, hg]
    | ok p =>
      obtain ⟨ip, used'⟩ := p
      obtain ⟨hnm, hc⟩ := getNextAvailableIP_ok hg
      subst hc
      obtain ⟨hnd, hfresh⟩ := ih (ip :: used)
      constructor
      · simp only [acquireSeq, hg, List.nodup_cons]
        exact ⟨hfresh ip (by simp), hnd⟩
      · intro x hx
        simp only [acquireSeq, hg, List.mem_cons]
        rintro (rfl | hmem)
        · exact hnm hx
        · exact hfresh x (by simp [hx]) hmem

theorem scanIPs_none {used : List String} {l : List Nat}
    (h : ∀ i ∈ l, ipString i ∈ used) : scanIPs used l = none := by
  induction l with
  | nil => rfl
  | cons i rest ih =>
    have hi : ipString i ∈ used := h i (by simp)
    simp [scanIPs, hi]
    exact ih (fun j hj => h j (by simp [hj]))

/-! ## Configuration resource model (the revision with `local_ip`/`version`)

Mirrors the `configurationModel` struct fields. -/

structure configurationModel where
  id : TFVal String
  serverNumber : TFVal Int
  serverIP : TFVal String
  serverName : TFVal String
  robotName : TFVal String
  description : TFVal String
  vswitchID : TFVal Int
  version : TFVal Int
  localIP : TFVal String
  raidLevel : TFVal Int
  arch : TFVal String
  cryptPassword : TFVal String
  extraScript : TFVal String
  noUEFI : TFVal Bool
  rescueKeyFPs : TFVal (List String)
deriving DecidableEq, Repr

/-- The robot-name selection shared by Create and Update:
default to `server_name`, overridden by a known non-empty `robot_name`. -/
def robotNameOf (plan : configurationModel) : String :=
  match plan.robotName with
  | .value s => if s ≠ "" then s else plan.serverName.valueString
  | _ => plan.serverName.valueString

/-- Oracle outcomes for the external calls an Update can make.
`configure` is the provisioning pipeline (`configurationResource.configure`),
returning its `(summary, detail)` pair, where an empty summary means
success. -/
structure UpdateEnv where
  setServerNameErr : Option String
  addVSwitchErr : Option String
  configure : configurationModel → String × String

/-- Observable outcome of `configurationResource.Update`: the error
diagnostic added (if any), the state persisted by `resp.State.Set` (if
reached), whether the provisioning pipeline (`r.configure`) was invoked,
and the allocator's in-use set afterwards. -/
structure UpdateResult where
  errored : Option (String × String)
  newState : Option configurationModel
  pipelineInvoked : Bool
  usedIPs : List String
deriving Repr

/-- Tail of Update's `version` branch: invoke `r.configure` on the plan;
on failure add its error, otherwise persist the plan with the prior
state's `ID`. -/
def updateRunConfigure (env : UpdateEnv) (used : List String)
    (plan2 state : configurationModel) : UpdateResult :=
  let sd := env.configure plan2
  if sd.1 ≠ "" then
    ⟨some (sd.1, sd.2), none, true, used⟩
  else
    ⟨none, some { plan2 with id := state.id }, true, used⟩

/-- `configurationResource.Update` of the `local_ip`/`version` revision:

1. copy `local_ip` forward from the prior state when it is known;
2. set the robot name when non-empty (error is fatal);
3. when `vswitch_id` is known and the prior state has a known `server_ip`,
   attach to the vswitch (error is fatal);
4. when `version` is known (non-null, non-unknown — the code does not
   compare it with the prior value), preserve a known non-empty prior
   `local_ip` or allocate a fresh one, run the full pipeline, and persist
   with the prior `ID`;
5. otherwise persist the plan with the prior `ID` without touching the
   pipeline. -/
def update (env : UpdateEnv) (used : List String)
    (plan state : configurationModel) : UpdateResult :=
  let plan1 := if state.localIP.isKnown then { plan with localIP := state.localIP } else plan
  let rn := robotNameOf plan1
  match (if rn = "" then none else env.setServerNameErr) with
  | some e => ⟨some ("update server name failed", e), none, false, used⟩
  | none =>
  match (if plan1.vswitchID.isKnown && state.serverIP.isKnown then env.addVSwitchErr else none) with
  | some e => ⟨some ("update server vswitch failed", e), none, false, used⟩
  | none =>
  if plan1.version.isKnown then
    if state.localIP.isKnown && (state.localIP.valueString != "") then
      updateRunConfigure env used { plan1 with localIP := state.localIP } state
    else
      match getNextAvailableIP used with
      | .error e => ⟨some ("IP assignment failed", e), none, false, used⟩
      | .ok (ip, used') =>
        updateRunConfigure env used' { plan1 with localIP := TFVal.value ip } state
  else
    ⟨none, some { plan1 with id := state.id }, false, used⟩

/-- Oracle outcomes for the external calls of Create. `idToken` stands for
the creation timestamp used in `fmt.Sprintf("configuration-%d", time.Now().Unix())`. -/
structure CreateEnv where
  setServerNameErr : Option String
  addVSwitchErr : Option String
  configure : configurationModel → String × String
  idToken : String

/-- Observable outcome of `configurationResource.Create`. -/
structure CreateResult where
  errored : Option (String × String)
  newState : Option configurationModel
  usedIPs : List String
deriving Repr

/-- `configurationResource.Create` of the `local_ip`/`version` revision:
allocate a private IP (exhaustion is fatal), set the robot name, attach
to the vswitch when configured, run the provisioning pipeline, then
persist. No path after a successful allocation releases the address. -/
def createRes (env : CreateEnv) (used : List String)
    (plan : configurationModel) : CreateResult :=
  match getNextAvailableIP used with
  | .error e => ⟨some ("IP assignment failed", e), none, used⟩
  | .ok (ip, used') =>
    let plan1 := { plan with localIP := TFVal.value ip }
    let rn := robotNameOf plan1
    match (if rn = "" then none else env.setServerNameErr) with
    | some e => ⟨some ("set server name failed", e), none, used'⟩
    | none =>
    match (if plan1.vswitchID.isKnown then env.addVSwitchErr else none) with
    | some e => ⟨some ("add server to vswitch failed", e), none, used'⟩
    | none =>
      let sd := env.configure plan1
      if sd.1 ≠ "" then ⟨some (sd.1, sd.2), none, used'⟩
      else ⟨none, some { plan1 with id := TFVal.value ("configuration-" ++ env.idToken) }, used'⟩

/-- Observable outcome of `configurationResource.Delete`: warnings and
errors added to the diagnostics, and the allocator's in-use set afterwards. -/
structure DeleteResult where
  warnings : List (String × String)
  errors : List (String × String)
  usedIPs : List String
deriving Repr

/-- `configurationResource.Delete` of the `local_ip`/`version` revision:
release a known non-empty `local_ip`, then schedule billing cancellation;
a cancellation failure is downgraded to a warning, never an error. -/
def deleteRes (cancelErr : Option String) (used : List String)
    (state : configurationModel) : DeleteResult :=
  let used' :=
    if state.localIP.isKnown && (state.localIP.valueString != "") then
      releaseIP used state.localIP.valueString
    else used
  if state.serverNumber.isKnown then
    match cancelErr with
    | some e =>
      ⟨[("Server Cancellation Failed",
         "Failed to schedule cancellation for server " ++ toString state.serverNumber.valueInt
           ++ ": " ++ e
           ++ ". Please cancel the server manually through the Hetzner Robot interface to stop billing.")],
       [], used'⟩
    | none =>
      ⟨[("Server Cancellation Scheduled",
         "Server " ++ toString state.serverNumber.valueInt
           ++ " has been scheduled for cancellation at the end of the billing period. The server will remain active until then.")],
       [], used'⟩
  else
    ⟨[("Manual Cancellation May Be Required",
       "The configuration has been removed from Terraform state, but if a server was created, you may need to cancel it manually through the Hetzner Robot interface.")],
     [], used'⟩

/-! ## Provisioning pipeline: `preInstall` (`provider/configure.go`)

We embed the revision whose `buildAutosetupContent` takes `noUEFI`
(the one the configuration resource with `local_ip`/`version` calls). -/

/-- Go's `asciiSpace` set used by `strings.TrimSpace` / `strings.Fields`
(tab, newline, vertical tab, form feed, carriage return, space). -/
def goIsSpace (c : Char) : Bool :=
  c = ' ' || c = '\t' || c = '\n' || c = Char.ofNat 11 || c = Char.ofNat 12 || c = '\r'

/-- `strings.TrimSpace`: drop leading and trailing whitespace. -/
def goTrimSpace (s : String) : String :=
  String.mk (((s.data.dropWhile goIsSpace).reverse.dropWhile goIsSpace).reverse)

/-- Splitting a character list at every character satisfying `p`,
keeping empty pieces (the shape of Go's `strings.Split` generalised to a
predicate separator). -/
def splitPredAux (p : Char → Bool) : List Char → List Char → List String
  | [], acc => [String.mk acc.reverse]
  | x :: xs, acc =>
    if p x then String.mk acc.reverse :: splitPredAux p xs []
    else splitPredAux p xs (x :: acc)

/-- `strings.Split(s, sep)` for a single-character separator. -/
def splitChar (c : Char) (s : String) : List String :=
  splitPredAux (fun x => x = c) s.data []

/-- `strings.Fields`: the whitespace-separated fields of a string. -/
def goFields (s : String) : List String :=
  (splitPredAux goIsSpace s.data []).filter (fun t => t ≠ "")

/-- `buildAutosetupContent(serverName, arch, cryptPassword, raidLevel,
drive1, drive2, noUEFI)`: the imaging directive text. -/
def buildAutosetupContent (serverName arch cryptPassword : String)
    (raidLevel : Int) (drive1 drive2 : String) (noUEFI : Bool) : String :=
  if noUEFI then
    "CRYPTPASSWORD " ++ cryptPassword
      ++ "\nDRIVE1 " ++ drive1
      ++ "\nDRIVE2 " ++ drive2
      ++ "\nSWRAID 1"
      ++ "\nSWRAIDLEVEL " ++ toString raidLevel
      ++ "\nBOOTLOADER grub"
      ++ "\nPART /boot ext4 1G"
      ++ "\nPART /     ext4 all crypt"
      ++ "\nIMAGE /root/images/Ubuntu-2404-noble-" ++ arch ++ "-base.tar.gz"
      ++ "\nHOSTNAME " ++ serverName
  else
    "CRYPTPASSWORD " ++ cryptPassword
      ++ "\nDRIVE1 " ++ drive1
      ++ "\nDRIVE2 " ++ drive2
      ++ "\nSWRAID 1"
      ++ "\nSWRAIDLEVEL " ++ toString raidLevel
      ++ "\nBOOTLOADER grub"
      ++ "\nPART /boot/efi esp 512M"
      ++ "\nPART /boot ext4 1G"
      ++ "\nPART /     ext4 all crypt"
      ++ "\nIMAGE /root/images/Ubuntu-2404-noble-" ++ arch ++ "-base.tar.gz"
      ++ "\nHOSTNAME " ++ serverName

/-- The external actions `preInstall` can attempt, in order of attempt.
`uploadAutosetup` carries the uploaded directive text. -/
inductive Step where
  | activateRescue : Step
  | hardReset : Step
  | waitRescue : Step
  | sshConnect : Step
  | diskProbe : Step
  | uploadAutosetup : String → Step
  | uploadPostinstall : Step
  | chmodPostinstall : Step
  | installimage : Step
  | rebootCmd : Step
  | waitOS : Step
  | waitOSExtended : Step
deriving DecidableEq, Repr

/-- Oracle outcomes for the external calls of `preInstall`. `diskRun` is
the result of `lsblk -d -o NAME,SIZE,TYPE | grep disk` over SSH. The two
`waitOS` entries are the primary 5-minute wait and the 15-minute
extension. -/
structure PreEnv where
  activateRescueErr : Option String
  resetErr : Option String
  waitRescueErr : Option String
  sshConnectErr : Option String
  diskRun : Except String String
  uploadAutosetupErr : Option String
  uploadPostinstallErr : Option String
  chmodErr : Option String
  installimageErr : Option String
  rebootErr : Option String
  waitOSErr : Option String
  waitOSExtendedErr : Option String

/-- The disk-name extraction loop of `preInstall`: for each listing line,
take the first whitespace-separated field, prefix `/dev/`, and assign line
0 to drive1 and later lines to drive2; a line with no fields is an error. -/
def drivesLoop : Nat → List String → String × String → Except (String × String) (String × String)
  | _, [], acc => .ok acc
  | i, line :: rest, acc =>
    match goFields line with
    | [] => .error ("disk parsing error", "Could not parse disk line: " ++ line)
    | f :: _ =>
      let name := "/dev/" ++ f
      if i = 0 then drivesLoop (i + 1) rest (name, acc.2)
      else drivesLoop (i + 1) rest (acc.1, name)

/-- Default RAID level: 1 when `raid_level` is null/unknown. -/
def raidLevelOf (plan : configurationModel) : Int :=
  if plan.raidLevel.isKnown then plan.raidLevel.valueInt else 1

/-- Default `no_uefi`: false when null/unknown. -/
def noUEFIOf (plan : configurationModel) : Bool :=
  if plan.noUEFI.isKnown then plan.noUEFI.valueBool else false

/-- `configurationResource.preInstall`: the rescue-and-imaging stage of
the pipeline. Returns the `(summary, detail)` error pair (both empty on
success) together with the trace of attempted external actions. -/
def preInstall (env : PreEnv) (fp : List String)
    (plan : configurationModel) : (String × String) × List Step :=
  match env.activateRescueErr with
  | some e => (("activate rescue failed", e), [Step.activateRescue])
  | none =>
  match env.resetErr with
  | some e => (("reset failed", e), [Step.activateRescue, Step.hardReset])
  | none =>
  match env.waitRescueErr with
  | some e => (("rescue ssh timeout", e), [Step.activateRescue, Step.hardReset, Step.waitRescue])
  | none =>
  if fp.isEmpty then
    (("no ssh keys", "At least one rescue_authorized_key_fingerprint is required for SSH access"),
     [Step.activateRescue, Step.hardReset, Step.waitRescue])
  else
  match env.sshConnectErr with
  | some e => (("ssh connect", e), [Step.activateRescue, Step.hardReset, Step.waitRescue, Step.sshConnect])
  | none =>
  let steps0 := [Step.activateRescue, Step.hardReset, Step.waitRescue, Step.sshConnect, Step.diskProbe]
  match env.diskRun with
  | .error e => (("disk detection failed", "Failed to detect disks: " ++ e), steps0)
  | .ok diskOutput =>
  let diskLines := splitChar '\n' (goTrimSpace diskOutput)
  if diskLines.length ≠ 2 then
    (("invalid disk count",
      "Expected exactly 2 disks, found " ++ toString diskLines.length ++ " disks: " ++ diskOutput),
     steps0)
  else
  match drivesLoop 0 diskLines ("", "") with
  | .error sd => (sd, steps0)
  | .ok (drive1, drive2) =>
  let autosetupContent :=
    buildAutosetupContent plan.serverName.valueString plan.arch.valueString
      plan.cryptPassword.valueString (raidLevelOf plan) drive1 drive2 (noUEFIOf plan)
  let steps1 := steps0 ++ [Step.uploadAutosetup autosetupContent]
  match env.uploadAutosetupErr with
  | some e => (("upload autosetup", e), steps1)
  | none =>
  let steps2 := steps1 ++ [Step.uploadPostinstall]
  match env.uploadPostinstallErr with
  | some e => (("upload post-install", e), steps2)
  | none =>
  let steps3 := steps2 ++ [Step.chmodPostinstall, Step.installimage]
  match env.installimageErr with
  | some e => (("installimage failed", e), steps3)
  | none =>
  let steps4 := steps3 ++ [Step.rebootCmd, Step.waitOS]
  match env.waitOSErr with
  | some e =>
    match env.waitOSExtendedErr with
    | some e2 => (("os ssh timeout", e ++ " / " ++ e2), steps4 ++ [Step.waitOSExtended])
    | none => (("", ""), steps4 ++ [Step.waitOSExtended])
  | none => (("", ""), steps4)

/-! ## Reachability waiter: `waitTCP` (`provider/helper.go`, lines 20-31)

Virtual-time model of the loop against an endpoint that never accepts:
every dial attempt fails, attempt `k` consuming `dialDur k` seconds
(`net.DialTimeout` is capped at 5 seconds), followed by the fixed
5-second sleep. `t` is the elapsed time in seconds; the function returns
the elapsed time at which the timeout error is returned. -/

def waitLoop (timeout : Nat) (dialDur : Nat → Nat) (t k : Nat) : Nat :=
  if h : t < timeout then waitLoop timeout dialDur (t + dialDur k + 5) (k + 1)
  else t
termination_by timeout - t
decreasing_by omega

/-- Elapsed seconds at which `waitTCP` returns its timeout error when the
endpoint never accepts a connection. -/
def waitTCPFailTime (timeout : Nat) (dialDur : Nat → Nat) : Nat :=
  waitLoop timeout dialDur 0 0

theorem waitLoop_ge (timeout : Nat) (dialDur : Nat → Nat) :
    ∀ n t k, timeout - t ≤ n → timeout ≤ waitLoop timeout dialDur t k := by
  intro n
  induction n with
  | zero =>
    intro t k hn
    rw [waitLoop]
    have ht : ¬ t < timeout := by omega
    simp [ht]
    omega
  | succ n ih =>
    intro t k hn
    rw [waitLoop]
    by_cases ht : t < timeout
    · simp only [ht, dif_pos]
      exact ih (t + dialDur k + 5) (k + 1) (by omega)
    · simp [ht]
      omega

theorem waitLoop_le (timeout : Nat) (dialDur : Nat → Nat)
    (hd : ∀ k, dialDur k ≤ 5) :
    ∀ n t k, timeout - t ≤ n → t ≤ timeout + 9 →
      waitLoop timeout dialDur t k ≤ timeout + 9 := by
  intro n
  induction n with
  | zero =>
    intro t k hn hl
    rw [waitLoop]
    have ht : ¬ t < timeout := by omega
    simp [ht]
    exact hl
  | succ n ih =>
    intro t k hn hl
    rw [waitLoop]
    by_cases ht : t < timeout
    · simp only [ht, dif_pos]
      have := hd k
      exact ih (t + dialDur k + 5) (k + 1) (by omega) (by omega)
    · simp [ht]
      exact hl

/-! ## Transaction cache and `serverOrderResource.Read` -/

/-- `client.Transaction`: the order-tracking record. -/
structure Transaction where
  id : String
  status : String
  serverNumber : Option Int
  serverIP : String
deriving DecidableEq, Repr

/-- The transaction cache: association list of transaction id to
`(transaction, lastUpdated)`, `lastUpdated` in seconds of virtual time.
Insertion shadows older entries, as assignment to a Go map does. -/
abbrev TxCache := List (String × Transaction × Nat)

/-- `cacheExpiry = 5 * time.Minute`, in seconds. -/
def cacheExpiry : Nat := 300

/-- `getCachedTransaction`: the cached transaction if present and not
older than the TTL. -/
def getCachedTransaction (cache : TxCache) (now : Nat) (txid : String) : Option Transaction :=
  match cache.lookup txid with
  | none => none
  | some (tx, lastUpdated) =>
    if now - lastUpdated > cacheExpiry then none else some tx

/-- `shouldRefreshTransaction`: refresh only while the status is the
non-terminal value. -/
def shouldRefreshTransaction : Option Transaction → Bool
  | none => true
  | some tx => tx.status == "in process"

/-- `setCachedTransaction`: store with the current time. -/
def setCachedTransaction (cache : TxCache) (txid : String) (tx : Transaction) (now : Nat) : TxCache :=
  (txid, tx, now) :: cache

/-- Possible outcomes of `serverOrderResource.Read`. -/
inductive ReadOutcome where
  | removed : ReadOutcome
  | failed : String → ReadOutcome
  | ok : Transaction → ReadOutcome
deriving DecidableEq, Repr

/-- The cache-or-fetch decision of `serverOrderResource.Read`: returns
whether a live `GetOrderTransaction` API call was issued, the outcome,
and the cache afterwards. `api` is the oracle for the API call; its error
carries the `IsNotFound` classification. -/
def serverOrderRead (cache : TxCache) (now : Nat) (txid : String)
    (api : Except (Bool × String) Transaction) : Bool × ReadOutcome × TxCache :=
  let cached := getCachedTransaction cache now txid
  match cached with
  | some tx =>
    if shouldRefreshTransaction (some tx) then
      match api with
      | .error nf => if nf.1 then (true, .removed, cache) else (true, .failed nf.2, cache)
      | .ok fresh => (true, .ok fresh, setCachedTransaction cache txid fresh now)
    else
      (false, .ok tx, cache)
  | none =>
    match api with
    | .error nf => if nf.1 then (true, .removed, cache) else (true, .failed nf.2, cache)
    | .ok fresh => (true, .ok fresh, setCachedTransaction cache txid fresh now)

/-! ## Claims about the private IP allocator -/

theorem ipRange_pairwise : ipRange.Pairwise (· < ·) := by
  unfold ipRange
  exact List.Pairwise.map _ (fun a b h => by omega) (List.pairwise_lt_range 126)

theorem scanIPs_lowest {used : List String} {l : List Nat} {ip : String}
    (hp : l.Pairwise (· < ·)) (h : scanIPs used l = some ip) :
    ∃ i, i ∈ l ∧ ip = ipString i ∧ ipString i ∉ used ∧
      ∀ j ∈ l, j < i → ipString j ∈ used := by
  induction l with
  | nil => simp [scanIPs] at h
  | cons a rest ih =>
    have hp' := List.pairwise_cons.mp hp
    by_cases hm : ipString a ∈ used
    · simp [scanIPs, hm] at h
      obtain ⟨i, hil, hip, hnm, hlow⟩ := ih hp'.2 h
      refine ⟨i, by simp [hil], hip, hnm, ?_⟩
      intro j hj hji
      rcases List.mem_cons.mp hj with rfl | hj'
      · exact hm
      · exact hlow j hj' hji
    · simp [scanIPs, hm] at h
      subst h
      refine ⟨a, by simp, rfl, hm, ?_⟩
      intro j hj hja
      rcases List.mem_cons.mp hj with rfl | hj'
      · omega
      · exact absurd hja (by have := hp'.1 j hj'; omega)

/-- C2: successive Acquire calls with no intervening Release return
pairwise distinct addresses (for any number of calls, hence in particular
for N at most the pool size of 126), and when every address of the pool
`10.1.0.2 - 10.1.0.127` is in use, Acquire returns the exhaustion error
rather than an address. -/
theorem claim_C2_acquire_distinct_and_exhaustion :
    (∀ (n : Nat) (used : List String), ((acquireSeq n used).1).Nodup) ∧
    (∀ used : List String, (∀ i ∈ ipRange, ipString i ∈ used) →
      getNextAvailableIP used =
        .error ("no available IP addresses in range 10.1.0.2-10.1.0.127")) := by
  constructor
  · intro n used
    exact (acquireSeq_nodup_aux n used).1
  · intro used h
    unfold getNextAvailableIP
    rw [scanIPs_none h]

/-- C2 witness: five acquisitions from an empty pool are distinct, and a
fully consumed pool yields the exhaustion error. -/
theorem claim_C2_witness :
    ((acquireSeq 5 []).1).Nodup ∧
    getNextAvailableIP (ipRange.map ipString) =
      .error ("no available IP addresses in range 10.1.0.2-10.1.0.127") := by
  constructor
  · exact claim_C2_acquire_distinct_and_exhaustion.1 5 []
  · exact claim_C2_acquire_distinct_and_exhaustion.2 (ipRange.map ipString)
      (fun i hi => List.mem_map_of_mem ipString hi)

/-- C6: Acquire returns the lowest free address — whenever it succeeds,
the returned address is `10.1.0.i` for some scan index `i` not in use
such that every lower scan index is in use; with addresses 2, 3 and 5
held the next Acquire returns `10.1.0.4`; and Acquire → Release → Acquire
on an otherwise-empty pool returns the same address both times. -/
theorem claim_C6_lowest_available :
    (∀ (used used' : List String) (ip : String),
      getNextAvailableIP used = .ok (ip, used') →
      ∃ i, i ∈ ipRange ∧ ip = ipString i ∧ ipString i ∉ used ∧
        ∀ j ∈ ipRange, j < i → ipString j ∈ used) ∧
    getNextAvailableIP ["10.1.0.2", "10.1.0.3", "10.1.0.5"] =
      .ok ("10.1.0.4", ["10.1.0.4", "10.1.0.2", "10.1.0.3", "10.1.0.5"]) ∧
    getNextAvailableIP [] = .ok ("10.1.0.2", ["10.1.0.2"]) ∧
    getNextAvailableIP (releaseIP ["10.1.0.2"] "10.1.0.2") = .ok ("10.1.0.2", ["10.1.0.2"]) := by
  refine ⟨?_, by rfl, by rfl, by rfl⟩
  intro used used' ip h
  unfold getNextAvailableIP at h
  cases hs : scanIPs used ipRange with
  | none => rw [hs] at h; cases h
  | some ip0 =>
    rw [hs] at h
    cases h
    exact scanIPs_lowest ipRange_pairwise hs

/-- C6 witness: with `10.1.0.2` held, the theorem's general clause yields
the lowest-free characterisation of the returned `10.1.0.3`. -/
theorem claim_C6_witness :
    ∃ i, i ∈ ipRange ∧ "10.1.0.3" = ipString i ∧ ipString i ∉ ["10.1.0.2"] ∧
      ∀ j ∈ ipRange, j < i → ipString j ∈ ["10.1.0.2"] :=
  claim_C6_lowest_available.1 ["10.1.0.2"] ["10.1.0.3", "10.1.0.2"] "10.1.0.3" (by rfl)

/-- C9: releasing an address that is not currently held is a no-op — the
in-use set is unchanged, and therefore every subsequent Acquire (single or
iterated) behaves exactly as if Release had not been called. The Go
`ReleaseIP` returns no error value at all. -/
theorem claim_C9_release_unheld_noop :
    ∀ (used : List String) (ip : String), ip ∉ used →
      releaseIP used ip = used ∧
      getNextAvailableIP (releaseIP used ip) = getNextAvailableIP used ∧
      ∀ n, acquireSeq n (releaseIP used ip) = acquireSeq n used := by
  intro used ip h
  have heq : releaseIP used ip = used := by
    unfold releaseIP
    apply List.filter_eq_self.mpr
    intro x hx
    simp only [bne_iff_ne, ne_eq]
    rintro rfl
    exact h hx
  exact ⟨heq, by rw [heq], fun n => by rw [heq]⟩

/-- C9 witness: releasing the never-acquired `10.1.0.9` leaves the set
`{10.1.0.2}` unchanged and does not disturb later acquisitions. -/
theorem claim_C9_witness :
    releaseIP ["10.1.0.2"] "10.1.0.9" = ["10.1.0.2"] ∧
    getNextAvailableIP (releaseIP ["10.1.0.2"] "10.1.0.9") = getNextAvailableIP ["10.1.0.2"] ∧
    acquireSeq 2 (releaseIP ["10.1.0.2"] "10.1.0.9") = acquireSeq 2 ["10.1.0.2"] := by
  obtain ⟨h1, h2, h3⟩ := claim_C9_release_unheld_noop ["10.1.0.2"] "10.1.0.9" (by decide)
  exact ⟨h1, h2, h3 2⟩

/-! ## Claims about the configuration resource lifecycle -/

theorem releaseIP_self_not_mem (used : List String) (ip : String) :
    ip ∉ releaseIP used ip := by
  intro h
  unfold releaseIP at h
  rw [List.mem_filter] at h
  simp at h

/-- A representative persisted state: server 321 with `local_ip`
`10.1.0.5`, `version` 1 and description `a`. -/
def sampleState : configurationModel where
  id := TFVal.value ("configuration-100")
  serverNumber := TFVal.value 321
  serverIP := TFVal.value ("1.2.3.4")
  serverName := TFVal.value ("node1")
  robotName := TFVal.null
  description := TFVal.value ("a")
  vswitchID := TFVal.null
  version := TFVal.value 1
  localIP := TFVal.value ("10.1.0.5")
  raidLevel := TFVal.null
  arch := TFVal.value ("amd64")
  cryptPassword := TFVal.value ("pw")
  extraScript := TFVal.null
  noUEFI := TFVal.null
  rescueKeyFPs := TFVal.value [("fp1")]

/-- An update environment in which every external call succeeds. -/
def benignUpdateEnv : UpdateEnv where
  setServerNameErr := none
  addVSwitchErr := none
  configure := fun _ => ("", "")

/-- The plan of an update that changes only `description` (computed
attributes `id`/`local_ip` are unknown at plan time; `version` keeps its
configured value 1). -/
def descOnlyPlan : configurationModel :=
  { sampleState with
    description := TFVal.value ("b")
    localIP := TFVal.unknown
    id := TFVal.unknown }

/-- The plan of an update that changes `version` from 1 to 2. -/
def versionBumpPlan : configurationModel :=
  { sampleState with
    version := TFVal.value 2
    localIP := TFVal.unknown
    id := TFVal.unknown }

/-- C1: contrary to the claim, a `version` change is not the only
update-time trigger of the provisioning pipeline. The Update code guards
the pipeline with `!plan.Version.IsNull() && !plan.Version.IsUnknown()` —
presence, not change. Evaluated at the failing input (prior state with
`localIP = 10.1.0.5` and `version = 1`, plan changing only `description`
with `version` still 1), the pipeline is invoked even though `version`
did not change; the claim's second scenario (version 1→2 runs the
pipeline and keeps `localIP = 10.1.0.5`) does hold. -/
theorem claim_C1_pipeline_trigger :
    (update benignUpdateEnv (["10.1.0.5"]) descOnlyPlan sampleState).pipelineInvoked = true ∧
    descOnlyPlan.version = sampleState.version ∧
    descOnlyPlan.description ≠ sampleState.description ∧
    ((update benignUpdateEnv (["10.1.0.5"]) descOnlyPlan sampleState).newState.map
      (fun m => m.localIP)) = some (TFVal.value ("10.1.0.5")) ∧
    (update benignUpdateEnv (["10.1.0.5"]) versionBumpPlan sampleState).pipelineInvoked = true ∧
    ((update benignUpdateEnv (["10.1.0.5"]) versionBumpPlan sampleState).newState.map
      (fun m => m.localIP)) = some (TFVal.value ("10.1.0.5")) := by
  decide

/-- C3: a Delete whose provider-side `CancelServer` call fails still
completes without a hard error — the failure surfaces only as the
`Server Cancellation Failed` warning — and the held `local_ip` is
released back to the allocator's pool. -/
theorem claim_C3_delete_best_effort :
    ∀ (cancelMsg : String) (used : List String) (state : configurationModel)
      (ip : String) (n : Int),
      state.localIP = TFVal.value ip → ip ≠ "" → state.serverNumber = TFVal.value n →
      (deleteRes (some cancelMsg) used state).errors = [] ∧
      ip ∉ (deleteRes (some cancelMsg) used state).usedIPs ∧
      ((deleteRes (some cancelMsg) used state).warnings.map Prod.fst) =
        ["Server Cancellation Failed"] := by
  intro cancelMsg used state ip n hip hne hsn
  simp [deleteRes, hip, hsn, TFVal.isKnown, TFVal.valueString, hne]
  exact releaseIP_self_not_mem used ip

/-- C3 witness: deleting the sample state while cancellation fails with
`api down` yields no error, a lone cancellation-failed warning, and a
pool no longer holding `10.1.0.5`. -/
theorem claim_C3_witness :
    (deleteRes (some ("api down")) (["10.1.0.5"]) sampleState).errors = [] ∧
    "10.1.0.5" ∉ (deleteRes (some ("api down")) (["10.1.0.5"]) sampleState).usedIPs ∧
    ((deleteRes (some ("api down")) (["10.1.0.5"]) sampleState).warnings.map Prod.fst) =
      ["Server Cancellation Failed"] :=
  claim_C3_delete_best_effort ("api down") (["10.1.0.5"]) sampleState ("10.1.0.5") 321
    (by rfl) (by decide) (by rfl)

/-- A persisted state whose `local_ip` is non-null but empty — the case
the Update code's `ValueString() != ""` guard treats specially. -/
def emptyLocalIPState : configurationModel :=
  { sampleState with localIP := TFVal.value ("") }

/-- A version-bump plan against `emptyLocalIPState`. -/
def emptyLocalIPPlan : configurationModel :=
  { emptyLocalIPState with
    version := TFVal.value 2
    localIP := TFVal.unknown
    id := TFVal.unknown }

/-- C7 counterexample: an Update whose prior state has a non-null (but
empty) `local_ip` does not carry it forward — the `version` branch
allocates a fresh address (`10.1.0.2`), so the resulting state's
`local_ip` differs from the prior one, refuting the claim as stated for
all non-null prior values. -/
theorem claim_C7_counterexample :
    emptyLocalIPState.localIP.isKnown = true ∧
    ((update benignUpdateEnv [] emptyLocalIPPlan emptyLocalIPState).newState.map
      (fun m => m.localIP)) = some (TFVal.value ("10.1.0.2")) ∧
    some (TFVal.value ("10.1.0.2")) ≠ some emptyLocalIPState.localIP := by
  decide

theorem updateRunConfigure_newState {env : UpdateEnv} {used : List String}
    {plan2 state ns : configurationModel}
    (h : (updateRunConfigure env used plan2 state).newState = some ns) :
    ns = { plan2 with id := state.id } := by
  unfold updateRunConfigure at h
  dsimp only at h
  split at h
  · simp at h
  · simp at h
    exact h.symm

/-- C7 (amended): every successful Update whose prior state holds a
non-null, non-empty `local_ip` persists a state with that same
`local_ip` — it is copied forward from the prior state on both the
version branch and the narrow-update branch. (When the prior value is
the empty string the version branch allocates a fresh address instead;
see the counterexample.) -/
theorem claim_C7_localip_preserved :
    ∀ (env : UpdateEnv) (used : List String) (plan state ns : configurationModel)
      (ip : String),
      state.localIP = TFVal.value ip → ip ≠ "" →
      (update env used plan state).newState = some ns →
      ns.localIP = TFVal.value ip := by
  intro env used plan state ns ip hip hne hns
  unfold update at hns
  rw [hip] at hns
  simp only [TFVal.isKnown, if_true] at hns
  split at hns
  · simp at hns
  · split at hns
    · simp at hns
    · split at hns
      · split at hns
        · have := updateRunConfigure_newState hns
          subst this
          rfl
        · next hcond =>
          exfalso
          apply hcond
          simp [TFVal.valueString, hne]
      · simp at hns
        rw [← hns]
  
/-- C7 witness: updating the sample state (prior `local_ip = 10.1.0.5`)
with a description-only plan persists the same `local_ip`. -/
theorem claim_C7_witness :
    ({ descOnlyPlan with
        localIP := TFVal.value ("10.1.0.5")
        id := sampleState.id } : configurationModel).localIP = TFVal.value ("10.1.0.5") :=
  claim_C7_localip_preserved benignUpdateEnv (["10.1.0.5"]) descOnlyPlan sampleState
    { descOnlyPlan with localIP := TFVal.value ("10.1.0.5"), id := sampleState.id }
    ("10.1.0.5") (by rfl) (by decide) (by decide)

/-- C10: when Create fails at any step after the private-IP allocation
succeeded (server-name set, vswitch attach, or the provisioning
pipeline), it returns the error without releasing the allocated address:
the address stays in the allocator's in-use set while no resource state
is persisted. -/
theorem claim_C10_create_failure_leaks_ip :
    ∀ (env : CreateEnv) (used used' : List String) (plan : configurationModel)
      (ip : String),
      getNextAvailableIP used = .ok (ip, used') →
      (createRes env used plan).errored.isSome = true →
      ip ∈ (createRes env used plan).usedIPs ∧ (createRes env used plan).newState = none := by
  intro env used used' plan ip hacq
  obtain ⟨-, rfl⟩ := getNextAvailableIP_ok hacq
  unfold createRes
  rw [hacq]
  dsimp only
  split
  · intro _
    exact ⟨by simp, rfl⟩
  · split
    · intro _
      exact ⟨by simp, rfl⟩
    · split
      · intro _
        exact ⟨by simp, rfl⟩
      · intro herr
        simp at herr

/-- A create environment in which the server-name call fails after the
allocation succeeded. -/
def failingCreateEnv : CreateEnv where
  setServerNameErr := some ("robot api down")
  addVSwitchErr := none
  configure := fun _ => ("", "")
  idToken := "1700000000"

/-- The creation plan corresponding to `sampleState` (computed attributes
unknown at plan time). -/
def createPlan : configurationModel :=
  { sampleState with localIP := TFVal.unknown, id := TFVal.unknown }

/-- C10 witness: on an empty pool, a Create that fails at the server-name
step leaves the freshly allocated `10.1.0.2` in the in-use set and
persists no state. -/
theorem claim_C10_witness :
    "10.1.0.2" ∈ (createRes failingCreateEnv [] createPlan).usedIPs ∧
    (createRes failingCreateEnv [] createPlan).newState = none :=
  claim_C10_create_failure_leaks_ip failingCreateEnv [] (["10.1.0.2"]) createPlan
    ("10.1.0.2") (by rfl) (by decide)

/-! ## Claims about the provisioning pipeline -/

/-- C5: when the stages before the disk probe succeed, a disk listing
whose line count differs from 2 makes `preInstall` fail with summary
`invalid disk count` and a detail carrying the literal count and the raw
listing, attempting none of the later stages (payload upload, imaging,
reboot); a 2-line listing proceeds, uploading an imaging directive whose
drive1 is `/dev/` plus the first field of the first line and whose drive2
comes from the second line. -/
theorem claim_C5_two_disk_enforcement :
    ∀ (env : PreEnv) (fp : List String) (plan : configurationModel) (out : String),
      env.activateRescueErr = none → env.resetErr = none → env.waitRescueErr = none →
      fp.isEmpty = false → env.sshConnectErr = none → env.diskRun = .ok out →
      (((splitChar '\n' (goTrimSpace out)).length ≠ 2 →
        preInstall env fp plan =
          (("invalid disk count",
            "Expected exactly 2 disks, found "
              ++ toString ((splitChar '\n' (goTrimSpace out)).length) ++ " disks: " ++ out),
           [Step.activateRescue, Step.hardReset, Step.waitRescue, Step.sshConnect,
            Step.diskProbe])) ∧
      (∀ (l0 l1 f g : String) (fs gs : List String),
        splitChar '\n' (goTrimSpace out) = [l0, l1] →
        goFields l0 = f :: fs → goFields l1 = g :: gs →
        Step.uploadAutosetup
          (buildAutosetupContent plan.serverName.valueString plan.arch.valueString
            plan.cryptPassword.valueString (raidLevelOf plan)
            ("/dev/" ++ f) ("/dev/" ++ g) (noUEFIOf plan)) ∈ (preInstall env fp plan).2)) := by
  intro env fp plan out h1 h2 h3 hfp h5 h6
  unfold preInstall
  rw [h1, h2, h3, hfp, h5, h6]
  simp only [Bool.false_eq_true, if_false]
  constructor
  · intro hlen
    rw [if_pos hlen]
  · intro l0 l1 f g fs gs hsplit hf0 hf1
    rw [hsplit]
    rw [if_neg (by simp)]
    have hd : drivesLoop 0 [l0, l1] ("", "") = .ok ("/dev/" ++ f, "/dev/" ++ g) := by
      simp [drivesLoop, hf0, hf1]
    rw [hd]
    dsimp only
    split
    · simp
    · split
      · simp
      · split
        · simp
        · split
          · split
            · simp
            · simp
          · simp

/-- A pipeline environment whose stages all succeed and whose disk probe
reports three disks. -/
def preEnvThreeDisks : PreEnv where
  activateRescueErr := none
  resetErr := none
  waitRescueErr := none
  sshConnectErr := none
  diskRun := .ok ("sda disk\nsdb disk\nsdc disk")
  uploadAutosetupErr := none
  uploadPostinstallErr := none
  chmodErr := none
  installimageErr := none
  rebootErr := none
  waitOSErr := none
  waitOSExtendedErr := none

/-- The same environment with a two-disk listing. -/
def preEnvTwoDisks : PreEnv :=
  { preEnvThreeDisks with diskRun := .ok ("sda 100G disk\nsdb 100G disk") }

/-- C5 witness: a three-line listing aborts with the literal count 3 and
the raw listing, attempting nothing past the probe; a two-line listing
uploads the directive built from `/dev/sda` and `/dev/sdb`. -/
theorem claim_C5_witness :
    preInstall preEnvThreeDisks [("k")] sampleState =
      (("invalid disk count",
        "Expected exactly 2 disks, found 3 disks: sda disk\nsdb disk\nsdc disk"),
       [Step.activateRescue, Step.hardReset, Step.waitRescue, Step.sshConnect,
        Step.diskProbe]) ∧
    Step.uploadAutosetup
      (buildAutosetupContent ("node1") ("amd64") ("pw") 1 ("/dev/sda") ("/dev/sdb") false)
        ∈ (preInstall preEnvTwoDisks [("k")] sampleState).2 := by
  constructor
  · have h := (claim_C5_two_disk_enforcement preEnvThreeDisks [("k")] sampleState
      ("sda disk\nsdb disk\nsdc disk") rfl rfl rfl rfl rfl rfl).1 (by decide)
    exact h.trans (by decide)
  · exact (claim_C5_two_disk_enforcement preEnvTwoDisks [("k")] sampleState
      ("sda 100G disk\nsdb 100G disk") rfl rfl rfl rfl rfl rfl).2
      ("sda 100G disk") ("sdb 100G disk") ("sda") ("sdb") (["100G", "disk"]) (["100G", "disk"])
      (by decide) (by decide) (by decide)

/-! ## Claims about the reachability waiter -/

/-- C8 counterexample: the claim's upper bound (timeout plus one poll
interval) fails when the per-attempt connection timeout is also consumed.
With an 11-second overall timeout and every dial attempt taking its full
5 seconds, the waiter returns at 20 seconds — later than 11 + 5. -/
theorem claim_C8_counterexample :
    waitTCPFailTime 11 (fun _ => 5) = 20 ∧ 11 + 5 < 20 := by
  constructor
  · unfold waitTCPFailTime
    rw [waitLoop]
    norm_num
    rw [waitLoop]
    norm_num
    rw [waitLoop]
    norm_num
  · norm_num

/-- C8 (amended): against an endpoint that never accepts, `waitTCP`
returns its timeout error no earlier than the configured timeout and
strictly before timeout + per-attempt dial timeout (5s) + poll interval
(5s), i.e. before timeout + 10 seconds — provided each failed dial
attempt takes at most its 5-second cap. -/
theorem claim_C8_wait_timeout_bounds :
    ∀ (timeout : Nat) (dialDur : Nat → Nat),
      (∀ k, dialDur k ≤ 5) →
      timeout ≤ waitTCPFailTime timeout dialDur ∧
      waitTCPFailTime timeout dialDur < timeout + 10 := by
  intro timeout d hd
  unfold waitTCPFailTime
  constructor
  · exact waitLoop_ge timeout d timeout 0 0 (by omega)
  · have h := waitLoop_le timeout d hd timeout 0 0 (by omega) (by omega)
    omega

/-- C8 witness: with instantly failing dial attempts and a 7-second
timeout, the waiter returns between 7 and 16 seconds. -/
theorem claim_C8_witness :
    7 ≤ waitTCPFailTime 7 (fun _ => 0) ∧ waitTCPFailTime 7 (fun _ => 0) < 7 + 10 :=
  claim_C8_wait_timeout_bounds 7 (fun _ => 0) (fun _ => Nat.zero_le 5)

/-! ## Claims about the transaction cache -/

/-- A transaction already in the terminal `ready` state. -/
def txReady : Transaction where
  id := "T1"
  status := "ready"
  serverNumber := some 123456
  serverIP := "192.168.1.100"

/-- A transaction still in the non-terminal `in process` state. -/
def txInProcess : Transaction where
  id := "T2"
  status := "in process"
  serverNumber := none
  serverIP := ""

/-- C4 counterexample: a transaction cached in the terminal `ready` state
is nevertheless re-fetched by a later read — at 301 seconds after
caching, the 5-minute TTL has lapsed, `getCachedTransaction` reports a
miss, and the read issues a live API call, refuting "no subsequent read
ever issues a live re-fetch". -/
theorem claim_C4_counterexample :
    (serverOrderRead [(("T1"), txReady, 0)] 301 ("T1") (.ok txReady)).1 = true ∧
    txReady.status = "ready" := by
  decide

/-- C4 (amended): a cached transaction is trusted — no API call, cached
data returned — exactly when its entry is within the 5-minute TTL and its
status is terminal (not `in process`); a within-TTL entry whose status is
`in process` is re-fetched from the API. (Expired or absent entries are
always re-fetched, as the counterexample shows.) -/
theorem claim_C4_cache_ttl :
    ∀ (cache : TxCache) (now : Nat) (txid : String) (tx : Transaction) (lu : Nat)
      (api : Except (Bool × String) Transaction),
      cache.lookup txid = some (tx, lu) → now - lu ≤ cacheExpiry →
      ((tx.status ≠ "in process" →
        (serverOrderRead cache now txid api).1 = false ∧
        (serverOrderRead cache now txid api).2.1 = .ok tx) ∧
       (tx.status = "in process" →
        (serverOrderRead cache now txid api).1 = true)) := by
  intro cache now txid tx lu api hl hfresh
  have hc : getCachedTransaction cache now txid = some tx := by
    unfold getCachedTransaction
    rw [hl]
    dsimp only
    rw [if_neg (by omega)]
  constructor
  · intro hterm
    have hs : shouldRefreshTransaction (some tx) = false := by
      simp [shouldRefreshTransaction, hterm]
    unfold serverOrderRead
    rw [hc]
    dsimp only
    rw [hs]
    simp
  · intro hproc
    have hs : shouldRefreshTransaction (some tx) = true := by
      simp [shouldRefreshTransaction, hproc]
    unfold serverOrderRead
    rw [hc]
    dsimp only
    rw [hs]
    rw [if_pos rfl]
    cases api with
    | error nf =>
      dsimp only
      by_cases h : nf.1 = true
      · rw [if_pos h]
      · rw [if_neg h]
    | ok fresh => rfl

/-- C4 witness: within the TTL, a cached `ready` transaction is served
from cache with no API call, while a cached `in process` one triggers a
live fetch. -/
theorem claim_C4_witness :
    ((serverOrderRead [(("T1"), txReady, 100)] 200 ("T1") (.ok txReady)).1 = false ∧
     (serverOrderRead [(("T1"), txReady, 100)] 200 ("T1") (.ok txReady)).2.1 = .ok txReady) ∧
    (serverOrderRead [(("T2"), txInProcess, 100)] 200 ("T2") (.ok txInProcess)).1 = true := by
  constructor
  · exact (claim_C4_cache_ttl [(("T1"), txReady, 100)] 200 ("T1") txReady 100
      (.ok txReady) (by rfl) (by decide)).1 (by decide)
  · exact (claim_C4_cache_ttl [(("T2"), txInProcess, 100)] 200 ("T2") txInProcess 100
      (.ok txInProcess) (by rfl) (by decide)).2 (by rfl)
